import Mathlib

/-
Verification development for the certificate-authenticity pipeline of this
repository (client-side analysis in `src/client/pages/SignIn.tsx`, response
shapes from `src/shared/api.ts`).

The pipeline is shallowly embedded as pure Lean functions.  Remote calls
(upload, OCR, ML fake-detection, registry verify) and the local QR decode are
modelled by an `Env` record that fixes, for one run, the outcome (success
payload or thrown failure) of each call site; `analyzeRun` threads the
mutable `base` accumulator of the source explicitly and also records the list
of remote calls attempted, so temporal claims about call counts can be
stated.  The Web Crypto digest is modelled as an abstract byte function
(`Option (List Nat → List Nat)`, `none` meaning `crypto.subtle` is
unavailable), and `Date.now()` as a natural number, so that the fallback
branch of `sha256Hex` is represented faithfully.  Only the response fields
that the pipeline reads are modelled.
-/

/-- `status` values of `VerificationResult` (SignIn.tsx line 61). -/
inductive Status where
  | valid
  | suspect
  | invalid
deriving DecidableEq, Repr

/-- `RegistryRecord` (SignIn.tsx lines 51-58). -/
structure RegistryRecord where
  certificateNumber : String
  hashHex : String
  name : String
  institution : String
  course : String
  year : Nat
deriving DecidableEq, Repr

/-- Wire shape of `matched_record` inside `VerificationResponse`
(shared/api.ts lines 44-50). -/
structure RemoteRecord where
  certificate_number : String
  name : String
  institution : String
  course : String
  year : Nat
deriving DecidableEq, Repr

/-- `UploadResponse` (shared/api.ts); only the `id` field is read by the
pipeline. -/
structure UploadResponse where
  id : String
deriving DecidableEq, Repr

/-- `OCRResponse` (shared/api.ts); only `extracted_text` is read. -/
structure OCRResponse where
  extracted_text : String
deriving DecidableEq, Repr

/-- `MLDetectionResponse` (shared/api.ts lines 66-88); only the fields read
by the pipeline are modelled.  `confidence` is a JS number, modelled as a
rational. -/
structure MLDetectionResponse where
  success : Bool
  is_fake : Bool
  confidence : ℚ
  error_message : Option String
deriving DecidableEq, Repr

/-- `VerificationResponse` (shared/api.ts lines 40-53); fields read by the
pipeline. -/
structure VerificationResponse where
  status : Status
  matched_record : Option RemoteRecord
  issues : List String
deriving DecidableEq, Repr

/-- The `metadata` field of `VerificationResult` (SignIn.tsx lines 63-73). -/
structure Metadata where
  fileName : String
  size : Nat
  mime : String
  hashHex : String
  qrData : Option String
  uploadId : Option String
  ocrText : Option String
  backendVerification : Option VerificationResponse
  mlDetection : Option MLDetectionResponse
deriving DecidableEq, Repr

/-- `VerificationResult` (SignIn.tsx lines 60-75). -/
structure VerificationResult where
  status : Status
  issues : List String
  metadata : Metadata
  matchedRecord : Option RegistryRecord
deriving DecidableEq, Repr

/-- The DOM `File` handed to `analyzeFile`: display name, declared MIME type,
declared size, and byte content (bytes as naturals below 256). -/
structure UploadedFile where
  name : String
  type : String
  size : Nat
  content : List Nat
deriving DecidableEq, Repr

/-- Outcome of one fallible call site: a returned payload or a thrown
failure. -/
inductive Outcome (α : Type) where
  | ok : α → Outcome α
  | fail : Outcome α
deriving DecidableEq, Repr

/-! ### Hex encoding and `sha256Hex` (SignIn.tsx lines 300-311) -/

/-- One base-16 digit character, lowercase, as produced by JS
`Number.prototype.toString(16)`. -/
def hexDigit (n : Nat) : Char :=
  if n < 10 then Char.ofNat (48 + n) else Char.ofNat (87 + n)

/-- Digit loop of `natToHexList`, with explicit fuel so that it is
structurally recursive (and hence evaluable inside the kernel); `fuel = n`
always suffices since the number of base-16 digits of `n` is at most `n`. -/
def natToHexAux : Nat → Nat → List Char
  | 0, n => [hexDigit n]
  | fuel + 1, n =>
    if n < 16 then [hexDigit n]
    else natToHexAux fuel (n / 16) ++ [hexDigit (n % 16)]

/-- JS `n.toString(16)`: base-16 representation, lowercase, no leading
zeros (for `n = 0` the single digit `0`). -/
def natToHexList (n : Nat) : List Char :=
  natToHexAux n n

/-- `b.toString(16).padStart(2, "0")` (SignIn.tsx line 309). -/
def byteToHex (n : Nat) : List Char :=
  let l := natToHexList n
  if l.length < 2 then '0' :: l else l

/-- `Array.from(bytes).map(b => b.toString(16).padStart(2, "0")).join("")`
(SignIn.tsx lines 308-310). -/
def bytesToHex (bs : List Nat) : String :=
  String.mk (List.flatten (bs.map byteToHex))

/-- `sha256Hex` (SignIn.tsx lines 300-311).  `crypto` is the abstract
`crypto.subtle` digest (`none` when unavailable), `now` is `Date.now()`;
the fallback branch returns `'fallback-hash-' + Date.now().toString(16)`. -/
def sha256Hex (crypto : Option (List Nat → List Nat)) (now : Nat)
    (buf : List Nat) : String :=
  match crypto with
  | none => "fallback-hash-" ++ String.mk (natToHexList now)
  | some digest => bytesToHex (digest buf)

/-! ### Certificate-number extraction (SignIn.tsx lines 313-320)

The source matches `input.match(/JH-[A-Z]{2}-\d{4}-\d{6,}/i)` and uppercases
the first (leftmost) match.  `matchTokenAt` tries the pattern at one start
position (the final `\d{6,}` is greedy and nothing follows it, so it takes
the maximal digit run); `findToken` scans start positions left to right. -/

/-- JS `String.prototype.startsWith`, stated on the underlying character
lists (kernel-evaluable, unlike `String.startsWith`). -/
def strStartsWith (s pre : String) : Bool :=
  pre.data.isPrefixOf s.data

/-- `[A-Z]` under the `/i` flag: an ASCII letter of either case. -/
def isAsciiLetter (c : Char) : Bool :=
  c.isUpper || c.isLower

/-- Attempt to match `JH-[A-Z]{2}-\d{4}-\d{6,}` (case-insensitive) at the
head of the list, returning the matched characters. -/
def matchTokenAt : List Char → Option (List Char)
  | j :: hh :: c1 :: a :: b :: c2 :: d1 :: d2 :: d3 :: d4 :: c3 :: rest =>
    if ((j == 'J' || j == 'j') && (hh == 'H' || hh == 'h') && c1 == '-'
        && isAsciiLetter a && isAsciiLetter b && c2 == '-'
        && d1.isDigit && d2.isDigit && d3.isDigit && d4.isDigit
        && c3 == '-') then
      let ds := rest.takeWhile (fun c => c.isDigit)
      if 6 ≤ ds.length then
        some (j :: hh :: c1 :: a :: b :: c2 :: d1 :: d2 :: d3 :: d4 :: c3 :: ds)
      else none
    else none
  | _ => none

/-- Leftmost match of the pattern, as JS `String.prototype.match` without
the `g` flag. -/
def findToken : List Char → Option (List Char)
  | [] => none
  | c :: cs =>
    match matchTokenAt (c :: cs) with
    | some t => some t
    | none => findToken cs

/-- `extractCertificateNumber` (SignIn.tsx lines 313-320): `null`/`undefined`
and the empty string are falsy and return `null`; otherwise the first match
of the pattern, uppercased. -/
def extractCertificateNumber (input : Option String) : Option String :=
  match input with
  | none => none
  | some s =>
    if s == "" then none
    else
      match findToken s.data with
      | some t => some (String.mk (t.map Char.toUpper))
      | none => none

/-! ### Local registry fallback (SignIn.tsx lines 77-95 and 248-298) -/

/-- `MOCK_REGISTRY` (SignIn.tsx lines 78-95). -/
def MOCK_REGISTRY : List RegistryRecord :=
  [ { certificateNumber := "JH-NU-2019-000123"
    , hashHex := "e3b0c44298fc1c149afbf4c8996fb92427ae41e4649b934ca495991b7852b855"
    , name := "Aarav Kumar"
    , institution := "Nilamber-Pitamber University"
    , course := "B.Sc"
    , year := 2019 }
  , { certificateNumber := "JH-RU-2021-004567"
    , hashHex := "aaaaaaaaaaaaaaaaaaaaaaaaaaaaaaaaaaaaaaaaaaaaaaaaaaaaaaaaaaaaaaaa"
    , name := "Ishita Singh"
    , institution := "Ranchi University"
    , course := "B.Tech"
    , year := 2021 }
  ]

/-- Lines 250-255 of SignIn.tsx: the certificate number inferred from the QR
payload (when the stored `qrData` is truthy and yields a token) with the
file name as fallback (`fromQr || fromName`). -/
def certNumberOf (qrData : Option String) (name : String) : Option String :=
  let fromName := extractCertificateNumber (some name)
  let fromQr :=
    match qrData with
    | some q => if q == "" then none else extractCertificateNumber (some q)
    | none => none
  match fromQr with
  | some t => if t == "" then fromName else some t
  | none => fromName

/-- Lines 259-261 of SignIn.tsx: the records sharing the extracted number
(`certificateNumber ? MOCK_REGISTRY.filter(...) : []`, with JS truthiness on
the string). -/
def numberMatchesOf (registry : List RegistryRecord) (n? : Option String) :
    List RegistryRecord :=
  match n? with
  | some n => if n == "" then [] else registry.filter (fun r => r.certificateNumber == n)
  | none => []

/-- Lines 288-290 of SignIn.tsx: structural issues appended after matching. -/
def structuralIssues (file : UploadedFile) : List String :=
  (if file.type == "" then ["Missing file type metadata"] else [])
    ++ (if file.size == 0 then ["Empty file content"] else [])

/-- `localVerification` (SignIn.tsx lines 249-298), generalized over the
record set it matches against (the source closes over `MOCK_REGISTRY`;
`localVerification` below instantiates it). -/
def localVerificationWith (registry : List RegistryRecord)
    (base : VerificationResult) (file : UploadedFile) : VerificationResult :=
  let certificateNumber := certNumberOf base.metadata.qrData file.name
  let directHashMatch := registry.find? (fun r => r.hashHex == base.metadata.hashHex)
  let numberMatches := numberMatchesOf registry certificateNumber
  match directHashMatch with
  | some r =>
    { base with
      status := Status.valid
      issues := base.issues ++ structuralIssues file
      matchedRecord := some r }
  | none =>
    match numberMatches with
    | r :: rest =>
      { base with
        status := Status.suspect
        issues := base.issues
          ++ ["Certificate number found but file hash does not match registry record"]
          ++ (if rest.isEmpty then []
              else ["Duplicate certificate number detected in registry (possible clone)"])
          ++ structuralIssues file
        matchedRecord := some r }
    | [] =>
      { base with
        status := Status.suspect
        issues := base.issues
          ++ ["No registry match. Please contact issuing institution for manual validation"]
          ++ structuralIssues file
        matchedRecord := none }

/-- `localVerification` as called by `analyzeFile`: the fallback matcher over
the static mock registry. -/
def localVerification (base : VerificationResult) (file : UploadedFile) :
    VerificationResult :=
  localVerificationWith MOCK_REGISTRY base file

/-! ### The verdict aggregator `analyzeFile` (SignIn.tsx lines 97-246)

One run's interaction with the outside world is fixed by an `Env`:
the abstract `crypto.subtle` digest and `Date.now()` used by `sha256Hex`,
and the outcome of each fallible call site, in the order the source can
reach them (`readQrFromImage`; the pre-OCR `detectFakeCertificate`;
`uploadCertificate`; `extractText`; the post-OCR `detectFakeCertificate`;
`verifyCertificate`).  A thrown exception at a call site is `Outcome.fail`,
handled exactly where the source catches it. -/

structure Env where
  crypto : Option (List Nat → List Nat)
  now : Nat
  qr : Outcome (Option String)
  detect1 : Outcome MLDetectionResponse
  upload : Outcome UploadResponse
  ocr : Outcome OCRResponse
  detect2 : Outcome MLDetectionResponse
  verify : Outcome VerificationResponse

/-- Remote call sites of the gateway, for the per-run call trace. -/
inductive RemoteCall where
  | uploadCall
  | extractTextCall
  | detectForgeryCall
  | verifyCall
deriving DecidableEq, BEq, Repr

/-- Result of one run: the `VerificationResult` the source returns, plus the
list of remote calls attempted during the run (in order). -/
structure RunOutput where
  result : VerificationResult
  calls : List RemoteCall
deriving Repr

/-- The locally computed content hash of the run
(`const hashHex = await sha256Hex(arrayBuffer)`, SignIn.tsx line 99). -/
def hashOf (file : UploadedFile) (env : Env) : String :=
  sha256Hex env.crypto env.now file.content

/-- `base.issues.push(msg)`. -/
def pushIssue (b : VerificationResult) (msg : String) : VerificationResult :=
  { b with issues := b.issues ++ [msg] }

/-- JS `(x).toFixed(1)` on a nonnegative number, used only to format the
confidence percentage inside issue strings. -/
def toFixed1 (q : ℚ) : String :=
  let n : ℤ := round (q * 10)
  toString (n / 10) ++ "." ++ toString (n.natAbs % 10)

/-- Issue string for a positive fake detection (SignIn.tsx line 136/193). -/
def fakeDetectedMsg (c : ℚ) : String :=
  "⚠️ AI detected this certificate as FAKE (" ++ toFixed1 (c * 100)
    ++ "% confidence)"

/-- Issue string for a negative fake detection (SignIn.tsx line 142/199). -/
def authenticMsg (c : ℚ) : String :=
  "✅ AI verified certificate as AUTHENTIC (" ++ toFixed1 (c * 100)
    ++ "% confidence)"

/-- Processing of a successfully returned `MLDetectionResponse`, identical at
both call sites (SignIn.tsx lines 129-146 and 187-203): store it in the
metadata, describe the verdict as an issue, and on a high-confidence fake
set `base.status = "invalid"`. -/
def applyMl (ml : MLDetectionResponse) (b : VerificationResult) :
    VerificationResult :=
  let b := { b with metadata := { b.metadata with mlDetection := some ml } }
  if ml.success then
    if ml.is_fake then
      let b := pushIssue b (fakeDetectedMsg ml.confidence)
      if ml.confidence > mkRat 4 5 then { b with status := Status.invalid } else b
    else pushIssue b (authenticMsg ml.confidence)
  else
    match ml.error_message with
    | some m => if m == "" then b else pushIssue b ("ML Detection error: " ++ m)
    | none => b

/-- The initial `base` accumulator (SignIn.tsx lines 101-110). -/
def mkBase (file : UploadedFile) (env : Env) : VerificationResult :=
  { status := Status.invalid
  , issues := []
  , metadata :=
    { fileName := file.name
    , size := file.size
    , mime := file.type
    , hashHex := hashOf file env
    , qrData := none
    , uploadId := none
    , ocrText := none
    , backendVerification := none
    , mlDetection := none }
  , matchedRecord := none }

/-- QR extraction step (SignIn.tsx lines 112-120): only for image MIME
types; a truthy decoded payload is stored, a thrown decode error becomes an
issue. -/
def qrStep (file : UploadedFile) (env : Env) (b : VerificationResult) :
    VerificationResult :=
  if strStartsWith file.type "image/" then
    match env.qr with
    | Outcome.ok (some q) =>
      if q == "" then b
      else { b with metadata := { b.metadata with qrData := some q } }
    | Outcome.ok none => b
    | Outcome.fail => pushIssue b "Failed to read QR code from image"
  else b

/-- Pre-OCR ML detection step (SignIn.tsx lines 122-155).  Returns the
updated accumulator and the `mlDetectionDone` flag, which becomes `true`
exactly when the call returned without throwing. -/
def detect1Step (file : UploadedFile) (env : Env) (b : VerificationResult) :
    VerificationResult × Bool :=
  if strStartsWith file.type "image/" then
    match env.detect1 with
    | Outcome.ok ml => (applyMl ml b, true)
    | Outcome.fail => (pushIssue b "AI-powered fake detection unavailable", false)
  else (b, false)

/-- `base.metadata.uploadId = uploadResult.id` (SignIn.tsx line 163). -/
def setUploadId (b : VerificationResult) (id : String) : VerificationResult :=
  { b with metadata := { b.metadata with uploadId := some id } }

/-- OCR step inside the backend try-block (SignIn.tsx lines 166-176). -/
def ocrStep (file : UploadedFile) (env : Env) (b : VerificationResult) :
    VerificationResult :=
  if strStartsWith file.type "image/" then
    match env.ocr with
    | Outcome.ok o =>
      { b with metadata := { b.metadata with ocrText := some o.extracted_text } }
    | Outcome.fail => pushIssue b "OCR text extraction failed"
  else b

/-- Post-OCR ML detection step (SignIn.tsx lines 178-208), guarded by
`file.type.startsWith("image/") && !mlDetectionDone`. -/
def detect2Step (file : UploadedFile) (env : Env) (done : Bool)
    (b : VerificationResult) : VerificationResult :=
  if strStartsWith file.type "image/" && !done then
    match env.detect2 with
    | Outcome.ok ml => applyMl ml b
    | Outcome.fail => pushIssue b "AI-powered fake detection with OCR unavailable"
  else b

/-- Merge of a successfully returned backend verification (SignIn.tsx lines
211-230): store the response, adopt its status only when the accumulator is
not already `"invalid"`, concatenate its issues after the accumulated ones,
and translate its matched record, reusing the locally computed hash. -/
def mergeStep (v : VerificationResponse) (hashHex : String)
    (b : VerificationResult) : VerificationResult :=
  let b := { b with metadata := { b.metadata with backendVerification := some v } }
  let b := if b.status ≠ Status.invalid then { b with status := v.status } else b
  let b := { b with issues := b.issues ++ v.issues }
  match v.matched_record with
  | some r =>
    let rec' : RegistryRecord :=
      { certificateNumber := r.certificate_number
      , hashHex := hashHex
      , name := r.name
      , institution := r.institution
      , course := r.course
      , year := r.year }
    { b with matchedRecord := some rec' }
  | none => b

/-- Accumulator state and `mlDetectionDone` flag just before the backend
try-block (after lines 97-155 of SignIn.tsx). -/
def preBackend (file : UploadedFile) (env : Env) : VerificationResult × Bool :=
  detect1Step file env (qrStep file env (mkBase file env))

/-- Accumulator state just before the `verifyCertificate` call, given that
`uploadCertificate` returned `u` (after lines 158-208 of SignIn.tsx). -/
def preVerify (file : UploadedFile) (env : Env) (u : UploadResponse) :
    VerificationResult :=
  detect2Step file env (preBackend file env).2
    (ocrStep file env (setUploadId (preBackend file env).1 u.id))

/-- The message pushed in the backend catch-block (SignIn.tsx line 236). -/
def backendFailMsg : String :=
  "Backend verification unavailable - using local verification"

/-- Remote calls attempted before the backend try-block: the pre-OCR
`detectFakeCertificate` when the file is an image. -/
def preCalls (file : UploadedFile) : List RemoteCall :=
  if strStartsWith file.type "image/" then [RemoteCall.detectForgeryCall] else []

/-- Remote calls attempted between a successful upload and the verify call:
`extractText` for images, and the post-OCR `detectFakeCertificate` when the
first attempt had not completed. -/
def midCalls (file : UploadedFile) (done : Bool) : List RemoteCall :=
  (if strStartsWith file.type "image/" then [RemoteCall.extractTextCall] else [])
    ++ (if strStartsWith file.type "image/" && !done
        then [RemoteCall.detectForgeryCall] else [])

/-- `analyzeFile` (SignIn.tsx lines 97-246) as one run over a fixed `Env`,
also recording every remote call attempted.  A failed upload or verify
aborts the backend try-block: its catch appends `backendFailMsg` and
delegates to `localVerification` with the accumulator as mutated so far. -/
def analyzeRun (file : UploadedFile) (env : Env) : RunOutput :=
  match env.upload with
  | Outcome.fail =>
    { result := localVerification (pushIssue (preBackend file env).1 backendFailMsg) file
    , calls := preCalls file ++ [RemoteCall.uploadCall] }
  | Outcome.ok u =>
    match env.verify with
    | Outcome.fail =>
      { result := localVerification (pushIssue (preVerify file env u) backendFailMsg) file
      , calls := preCalls file ++ [RemoteCall.uploadCall]
          ++ midCalls file (preBackend file env).2 ++ [RemoteCall.verifyCall] }
    | Outcome.ok v =>
      { result := mergeStep v (hashOf file env) (preVerify file env u)
      , calls := preCalls file ++ [RemoteCall.uploadCall]
          ++ midCalls file (preBackend file env).2 ++ [RemoteCall.verifyCall] }

/-- The `VerificationResult` returned by `analyzeFile`. -/
def analyzeFile (file : UploadedFile) (env : Env) : VerificationResult :=
  (analyzeRun file env).result

/-! ### Spec-side shape predicate and concrete inputs

`tokenShape` renders, as a predicate on character lists, the shape of a
match of the source pattern `JH-[A-Z]{2}-\d{4}-\d{6,}` under `/i`; it is
used to state what the extractor returns.  The concrete files, responses
and environments below are the inputs at which witnesses and
counterexamples evaluate the pipeline. -/

/-- Shape of a token the source regex can match (case-insensitive `JH`,
hyphen, two ASCII letters, hyphen, four digits, hyphen, six or more
digits). -/
def tokenShape (t : List Char) : Prop :=
  ∃ j hh a b d1 d2 d3 d4 ds,
    t = j :: hh :: '-' :: a :: b :: '-' :: d1 :: d2 :: d3 :: d4 :: '-' :: ds
    ∧ (j = 'J' ∨ j = 'j') ∧ (hh = 'H' ∨ hh = 'h')
    ∧ isAsciiLetter a = true ∧ isAsciiLetter b = true
    ∧ d1.isDigit = true ∧ d2.isDigit = true ∧ d3.isDigit = true ∧ d4.isDigit = true
    ∧ (∀ c ∈ ds, c.isDigit = true) ∧ 6 ≤ ds.length

/-- The sixteen lowercase hexadecimal digit characters. -/
def hexChars : List Char := "0123456789abcdef".data

/-- A digest stub returning thirty-two copies of one byte, standing in for
`crypto.subtle.digest` at concrete evaluation points. -/
def constDigest (b : Nat) : List Nat → List Nat := fun _ => List.replicate 32 b

/-- A concrete image file. -/
def imageFile : UploadedFile :=
  { name := "scan.png", type := "image/png", size := 4, content := [1, 2, 3, 4] }

/-- A concrete non-image file (the pre-OCR ML call site is unreachable). -/
def pdfFile : UploadedFile :=
  { name := "doc.pdf", type := "application/pdf", size := 4, content := [1, 2, 3, 4] }

/-- A concrete image file whose display name carries the first mock
record's certificate number. -/
def namedFile : UploadedFile :=
  { name := "JH-NU-2019-000123.png", type := "image/png", size := 4
  , content := [9] }

/-- A fake-detection response: definite fake at confidence 0.9. -/
def highFakeMl : MLDetectionResponse :=
  { success := true, is_fake := true, confidence := mkRat 9 10, error_message := none }

/-- A backend verification response reporting `valid`. -/
def validRemote : VerificationResponse :=
  { status := Status.valid
  , matched_record := some
      { certificate_number := "JH-NU-2019-000123", name := "Aarav Kumar"
      , institution := "Nilamber-Pitamber University", course := "B.Sc", year := 2019 }
  , issues := ["Backend check passed"] }

/-- Environment where every remote call and the QR decode fail; the digest
maps everything to the byte `0`. -/
def envAllFail : Env :=
  { crypto := some (constDigest 0), now := 0
  , qr := Outcome.fail, detect1 := Outcome.fail, upload := Outcome.fail
  , ocr := Outcome.fail, detect2 := Outcome.fail, verify := Outcome.fail }

/-- Environment where the high-confidence fake detection succeeds, the
authoritative path fails, and the digest sends every content to the second
mock record's registered hash. -/
def envLatchThenFallback : Env :=
  { crypto := some (constDigest 170), now := 0
  , qr := Outcome.ok none, detect1 := Outcome.ok highFakeMl
  , upload := Outcome.fail, ocr := Outcome.fail, detect2 := Outcome.fail
  , verify := Outcome.fail }

/-- Environment where the authoritative path succeeds end to end and the
backend reports `valid`; the first fake-detection call also succeeds. -/
def envBackendOk : Env :=
  { crypto := some (constDigest 0), now := 0
  , qr := Outcome.ok none, detect1 := Outcome.ok highFakeMl
  , upload := Outcome.ok { id := "id1" }, ocr := Outcome.ok { extracted_text := "text" }
  , detect2 := Outcome.ok highFakeMl, verify := Outcome.ok validRemote }

/-- Environment where only the backend calls reachable after upload succeed
(no ML, no QR): upload and verify return, everything else fails. -/
def envBackendOnly : Env :=
  { crypto := some (constDigest 0), now := 0
  , qr := Outcome.fail, detect1 := Outcome.fail, upload := Outcome.ok { id := "id1" }
  , ocr := Outcome.fail, detect2 := Outcome.fail, verify := Outcome.ok validRemote }

/-- Environment where upload succeeds but verify fails. -/
def envVerifyFails : Env :=
  { crypto := some (constDigest 0), now := 0
  , qr := Outcome.fail, detect1 := Outcome.fail, upload := Outcome.ok { id := "id1" }
  , ocr := Outcome.fail, detect2 := Outcome.fail, verify := Outcome.fail }

/-- Environment where the high-confidence fake detection succeeds and the
authoritative path fails at the verify step (upload succeeds, verify
throws); the digest again sends every content to the second mock record's
registered hash. -/
def envLatchVerifyFails : Env :=
  { crypto := some (constDigest 170), now := 0
  , qr := Outcome.ok none, detect1 := Outcome.ok highFakeMl
  , upload := Outcome.ok { id := "id1" }
  , ocr := Outcome.fail, detect2 := Outcome.fail, verify := Outcome.fail }

/-! ### Helper lemmas: the accumulator's status before the backend merge -/

theorem pushIssue_status (b : VerificationResult) (m : String) :
    (pushIssue b m).status = b.status := rfl

theorem pushIssue_issues (b : VerificationResult) (m : String) :
    (pushIssue b m).issues = b.issues ++ [m] := rfl

theorem applyMl_status_inv (ml : MLDetectionResponse) (b : VerificationResult)
    (h : b.status = Status.invalid) : (applyMl ml b).status = Status.invalid := by
  unfold applyMl pushIssue
  dsimp only
  split
  · split
    · split
      · rfl
      · exact h
    · exact h
  · split
    · split
      · exact h
      · exact h
    · exact h

theorem qrStep_status (f : UploadedFile) (e : Env) (b : VerificationResult) :
    (qrStep f e b).status = b.status := by
  unfold qrStep pushIssue
  split
  · cases e.qr with
    | ok q =>
      cases q with
      | some s => dsimp only; split <;> rfl
      | none => rfl
    | fail => rfl
  · rfl

theorem detect1Step_fst_status_inv (f : UploadedFile) (e : Env)
    (b : VerificationResult) (h : b.status = Status.invalid) :
    ((detect1Step f e b).1).status = Status.invalid := by
  unfold detect1Step
  split
  · cases e.detect1 with
    | ok ml => exact applyMl_status_inv ml b h
    | fail => exact h
  · exact h

theorem setUploadId_status (b : VerificationResult) (id : String) :
    (setUploadId b id).status = b.status := rfl

theorem ocrStep_status (f : UploadedFile) (e : Env) (b : VerificationResult) :
    (ocrStep f e b).status = b.status := by
  unfold ocrStep pushIssue
  split
  · cases e.ocr with
    | ok o => rfl
    | fail => rfl
  · rfl

theorem detect2Step_status_inv (f : UploadedFile) (e : Env) (done : Bool)
    (b : VerificationResult) (h : b.status = Status.invalid) :
    (detect2Step f e done b).status = Status.invalid := by
  unfold detect2Step
  split
  · cases e.detect2 with
    | ok ml => exact applyMl_status_inv ml b h
    | fail => exact h
  · exact h

theorem preBackend_fst_status (f : UploadedFile) (e : Env) :
    ((preBackend f e).1).status = Status.invalid := by
  unfold preBackend
  apply detect1Step_fst_status_inv
  rw [qrStep_status]
  rfl

theorem preVerify_status (f : UploadedFile) (e : Env) (u : UploadResponse) :
    (preVerify f e u).status = Status.invalid := by
  unfold preVerify
  apply detect2Step_status_inv
  rw [ocrStep_status, setUploadId_status]
  exact preBackend_fst_status f e

theorem mergeStep_status_inv (v : VerificationResponse) (hh : String)
    (b : VerificationResult) (h : b.status = Status.invalid) :
    (mergeStep v hh b).status = Status.invalid := by
  unfold mergeStep
  dsimp only
  split
  · simp [h]
  · simp [h]

/-- On a run whose upload and verify calls both return, `analyzeFile` ends in
the merge step over a pre-merge accumulator whose status is still the
initial `"invalid"`. -/
theorem backendOk_status_invalid (file : UploadedFile) (env : Env)
    (u : UploadResponse) (v : VerificationResponse)
    (hu : env.upload = Outcome.ok u) (hv : env.verify = Outcome.ok v) :
    (analyzeFile file env).status = Status.invalid := by
  unfold analyzeFile analyzeRun
  rw [hu, hv]
  exact mergeStep_status_inv v (hashOf file env) _ (preVerify_status file env u)

/-! ### Helper lemmas: the local fallback's status -/

theorem localVerificationWith_status (registry : List RegistryRecord)
    (base : VerificationResult) (file : UploadedFile) :
    (localVerificationWith registry base file).status = Status.valid ∨
      (localVerificationWith registry base file).status = Status.suspect := by
  unfold localVerificationWith
  dsimp only
  split
  · left; rfl
  · split
    · right; rfl
    · right; rfl

theorem analyzeFile_fallback_of_upload_fail (file : UploadedFile) (env : Env)
    (hu : env.upload = Outcome.fail) :
    analyzeFile file env
      = localVerification (pushIssue (preBackend file env).1 backendFailMsg) file := by
  unfold analyzeFile analyzeRun
  rw [hu]

theorem analyzeFile_fallback_of_verify_fail (file : UploadedFile) (env : Env)
    (u : UploadResponse) (hu : env.upload = Outcome.ok u)
    (hv : env.verify = Outcome.fail) :
    analyzeFile file env
      = localVerification (pushIssue (preVerify file env u) backendFailMsg) file := by
  unfold analyzeFile analyzeRun
  rw [hu, hv]

/-! ### Claim C3 -/

/-- C3: whenever the authoritative path succeeds (upload and verify both
return without error), `analyzeFile` returns `status = invalid` whatever
verdict the remote verify reports, because `status` is initialized to
`invalid` at the start of the run and the remote verdict is adopted only
when `status` is not `invalid`. -/
theorem c3_backend_success_always_invalid (file : UploadedFile) (env : Env)
    (u : UploadResponse) (v : VerificationResponse)
    (hu : env.upload = Outcome.ok u) (hv : env.verify = Outcome.ok v) :
    (analyzeFile file env).status = Status.invalid :=
  backendOk_status_invalid file env u v hu hv

/-- Witness for C3 at a concrete run: a non-image file, upload and verify
both succeed, the backend reports `valid`, and the result is still
`invalid`. -/
theorem c3_backend_success_always_invalid_witness :
    (analyzeFile pdfFile envBackendOnly).status = Status.invalid :=
  c3_backend_success_always_invalid pdfFile envBackendOnly
    { id := "id1" } validRemote rfl rfl

/-! ### Claim C2 -/

/-- C2 (code-bug evidence): a run with no fake-detection latch (non-image
file, so `detectForgery` never runs) in which the authoritative path
succeeds and the remote verify reports `valid`, yet `analyzeFile` returns
`invalid` — the backend verdict is never adopted, contradicting the merge
rule and the source's own comment `Use backend results`. -/
theorem c2_backend_verdict_not_adopted :
    envBackendOnly.verify = Outcome.ok validRemote
    ∧ validRemote.status = Status.valid
    ∧ strStartsWith pdfFile.type "image/" = false
    ∧ (analyzeFile pdfFile envBackendOnly).status = Status.invalid :=
  ⟨rfl, rfl, by decide, by decide⟩

/-! ### Claim C6 -/

/-- C6: the local registry matcher never returns `status = invalid`: for
every record set, accumulator and file reaching the fallback, the status it
assigns is `valid` or `suspect`. -/
theorem c6_local_matcher_never_invalid (registry : List RegistryRecord)
    (base : VerificationResult) (file : UploadedFile) :
    (localVerificationWith registry base file).status = Status.valid ∨
      (localVerificationWith registry base file).status = Status.suspect :=
  localVerificationWith_status registry base file

/-! ### Claim C1 -/

/-- C1 counterexample: the first `detectForgery` call reports a fake at
confidence 0.9 > 0.8, the authoritative path then fails, and the local
fallback finds a fingerprint match — the run returns `valid`, not the
`invalid` the claim requires. -/
theorem c1_latch_counterexample :
    envLatchThenFallback.detect1 = Outcome.ok highFakeMl
    ∧ highFakeMl.is_fake = true
    ∧ highFakeMl.confidence > mkRat 4 5
    ∧ envLatchThenFallback.upload = Outcome.fail
    ∧ (analyzeFile imageFile envLatchThenFallback).status = Status.valid
    ∧ (analyzeFile imageFile envLatchThenFallback).status ≠ Status.invalid :=
  ⟨rfl, rfl, by decide, rfl, by decide, by decide⟩

/-- C1 amended: the high-confidence fake-detection latch holds through the
authoritative path — if upload and verify both succeed the returned status
is `invalid` regardless of the remote verdict — but it does not survive the
local registry fallback: whenever the authoritative path fails, at the
upload step or at the verify step, the fallback replaces the status with
its own verdict, which is always `valid` or `suspect`. -/
theorem c1_latch_amended (file : UploadedFile) (env : Env)
    (ml : MLDetectionResponse)
    (himg : strStartsWith file.type "image/" = true)
    (hml : env.detect1 = Outcome.ok ml) (hs : ml.success = true)
    (hf : ml.is_fake = true) (hc : ml.confidence > mkRat 4 5) :
    (∀ u v, env.upload = Outcome.ok u → env.verify = Outcome.ok v →
      (analyzeFile file env).status = Status.invalid)
    ∧ (env.upload = Outcome.fail →
      (analyzeFile file env).status = Status.valid ∨
        (analyzeFile file env).status = Status.suspect)
    ∧ (∀ u, env.upload = Outcome.ok u → env.verify = Outcome.fail →
      (analyzeFile file env).status = Status.valid ∨
        (analyzeFile file env).status = Status.suspect) := by
  refine ⟨?_, ?_, ?_⟩
  · intro u v hu hv
    exact backendOk_status_invalid file env u v hu hv
  · intro hu
    rw [analyzeFile_fallback_of_upload_fail file env hu]
    exact localVerificationWith_status MOCK_REGISTRY _ file
  · intro u hu hv
    rw [analyzeFile_fallback_of_verify_fail file env u hu hv]
    exact localVerificationWith_status MOCK_REGISTRY _ file

/-- Witness for C1 amended, covering all three conjuncts: a latched run
whose authoritative path succeeds returns `invalid`; a latched run whose
upload fails, and a latched run whose upload succeeds but whose verify
fails, both return the fallback's `valid`-or-`suspect` verdict. -/
theorem c1_latch_amended_witness :
    (analyzeFile imageFile envBackendOk).status = Status.invalid
    ∧ ((analyzeFile imageFile envLatchThenFallback).status = Status.valid ∨
        (analyzeFile imageFile envLatchThenFallback).status = Status.suspect)
    ∧ ((analyzeFile imageFile envLatchVerifyFails).status = Status.valid ∨
        (analyzeFile imageFile envLatchVerifyFails).status = Status.suspect) :=
  ⟨(c1_latch_amended imageFile envBackendOk highFakeMl (by decide) rfl rfl rfl
      (by decide)).1 { id := "id1" } validRemote rfl rfl,
   (c1_latch_amended imageFile envLatchThenFallback highFakeMl (by decide) rfl rfl rfl
      (by decide)).2.1 rfl,
   (c1_latch_amended imageFile envLatchVerifyFails highFakeMl (by decide) rfl rfl rfl
      (by decide)).2.2 { id := "id1" } rfl rfl⟩

/-! ### Claim C7 -/

theorem preBackend_snd_true_of_detect1_ok (f : UploadedFile) (e : Env)
    (ml : MLDetectionResponse) (himg : strStartsWith f.type "image/" = true)
    (h1 : e.detect1 = Outcome.ok ml) : (preBackend f e).2 = true := by
  unfold preBackend detect1Step
  rw [himg, h1]
  rfl

/-- C7: in every run in which the pre-OCR `detectForgery` call completes
without throwing, the call trace contains exactly one `detectForgery`
invocation — the post-OCR call site never fires once `mlDetectionDone` is
set. -/
theorem c7_detect_forgery_at_most_once (file : UploadedFile) (env : Env)
    (ml : MLDetectionResponse)
    (himg : strStartsWith file.type "image/" = true)
    (h1 : env.detect1 = Outcome.ok ml) :
    (analyzeRun file env).calls.count RemoteCall.detectForgeryCall = 1 := by
  have hdone := preBackend_snd_true_of_detect1_ok file env ml himg h1
  unfold analyzeRun
  cases hu : env.upload with
  | fail =>
    simp only [preCalls, himg, if_pos]
    decide
  | ok u =>
    cases hv : env.verify with
    | fail =>
      simp [preCalls, midCalls, himg, hdone]
      decide
    | ok v =>
      simp [preCalls, midCalls, himg, hdone]
      decide

/-- Witness for C7: concrete image run where both call sites are reachable
and every remote call (including both potential detections) would succeed;
exactly one detection call is made. -/
theorem c7_detect_forgery_at_most_once_witness :
    (analyzeRun imageFile envBackendOk).calls.count RemoteCall.detectForgeryCall = 1 :=
  c7_detect_forgery_at_most_once imageFile envBackendOk highFakeMl (by decide) rfl

/-! ### Helper lemmas: issues only accumulate -/

theorem applyMl_issues (ml : MLDetectionResponse) (b : VerificationResult) :
    ∃ l, (applyMl ml b).issues = b.issues ++ l := by
  unfold applyMl pushIssue
  dsimp only
  split
  · split
    · split
      · exact ⟨_, rfl⟩
      · exact ⟨_, rfl⟩
    · exact ⟨_, rfl⟩
  · split
    · split
      · exact ⟨[], by simp⟩
      · exact ⟨_, rfl⟩
    · exact ⟨[], by simp⟩

theorem qrStep_issues (f : UploadedFile) (e : Env) (b : VerificationResult) :
    ∃ l, (qrStep f e b).issues = b.issues ++ l := by
  unfold qrStep pushIssue
  split
  · cases e.qr with
    | ok q =>
      cases q with
      | some s =>
        dsimp only
        split
        · exact ⟨[], by simp⟩
        · exact ⟨[], by simp⟩
      | none => exact ⟨[], by simp⟩
    | fail => exact ⟨_, rfl⟩
  · exact ⟨[], by simp⟩

theorem detect1Step_fst_issues (f : UploadedFile) (e : Env)
    (b : VerificationResult) :
    ∃ l, ((detect1Step f e b).1).issues = b.issues ++ l := by
  unfold detect1Step
  split
  · cases e.detect1 with
    | ok ml => exact applyMl_issues ml b
    | fail => exact ⟨_, rfl⟩
  · exact ⟨[], by simp⟩

theorem ocrStep_issues (f : UploadedFile) (e : Env) (b : VerificationResult) :
    ∃ l, (ocrStep f e b).issues = b.issues ++ l := by
  unfold ocrStep pushIssue
  split
  · cases e.ocr with
    | ok o => exact ⟨[], by simp⟩
    | fail => exact ⟨_, rfl⟩
  · exact ⟨[], by simp⟩

theorem detect2Step_issues (f : UploadedFile) (e : Env) (done : Bool)
    (b : VerificationResult) :
    ∃ l, (detect2Step f e done b).issues = b.issues ++ l := by
  unfold detect2Step
  split
  · cases e.detect2 with
    | ok ml => exact applyMl_issues ml b
    | fail => exact ⟨_, rfl⟩
  · exact ⟨[], by simp⟩

theorem mergeStep_issues (v : VerificationResponse) (hh : String)
    (b : VerificationResult) :
    (mergeStep v hh b).issues = b.issues ++ v.issues := by
  unfold mergeStep
  dsimp only
  split
  · dsimp only
    split <;> rfl
  · split <;> rfl

theorem localVerificationWith_issues (registry : List RegistryRecord)
    (base : VerificationResult) (file : UploadedFile) :
    ∃ l, (localVerificationWith registry base file).issues = base.issues ++ l := by
  unfold localVerificationWith
  dsimp only
  split
  · exact ⟨_, rfl⟩
  · split
    · rename_i rr rest heq
      refine ⟨"Certificate number found but file hash does not match registry record"
        :: ((if rest.isEmpty then []
             else ["Duplicate certificate number detected in registry (possible clone)"])
            ++ structuralIssues file), ?_⟩
      simp
    · refine ⟨"No registry match. Please contact issuing institution for manual validation"
        :: structuralIssues file, ?_⟩
      simp

theorem preVerify_issues (f : UploadedFile) (e : Env) (u : UploadResponse) :
    ∃ l, (preVerify f e u).issues = ((preBackend f e).1).issues ++ l := by
  unfold preVerify
  obtain ⟨l1, h1⟩ := ocrStep_issues f e (setUploadId (preBackend f e).1 u.id)
  obtain ⟨l2, h2⟩ :=
    detect2Step_issues f e (preBackend f e).2
      (ocrStep f e (setUploadId (preBackend f e).1 u.id))
  refine ⟨l1 ++ l2, ?_⟩
  rw [h2, h1]
  have hs : (setUploadId (preBackend f e).1 u.id).issues
      = ((preBackend f e).1).issues := rfl
  rw [hs, List.append_assoc]

theorem analyzeFile_issues_ext_preVerify (f : UploadedFile) (e : Env)
    (u : UploadResponse) (hu : e.upload = Outcome.ok u) :
    ∃ l, (analyzeFile f e).issues = (preVerify f e u).issues ++ l := by
  cases hv : e.verify with
  | fail =>
    rw [analyzeFile_fallback_of_verify_fail f e u hu hv]
    obtain ⟨l2, h2⟩ := localVerificationWith_issues MOCK_REGISTRY
      (pushIssue (preVerify f e u) backendFailMsg) f
    refine ⟨[backendFailMsg] ++ l2, ?_⟩
    show (localVerificationWith MOCK_REGISTRY
      (pushIssue (preVerify f e u) backendFailMsg) f).issues = _
    rw [h2, pushIssue_issues, List.append_assoc]
  | ok v =>
    have hrw : analyzeFile f e = mergeStep v (hashOf f e) (preVerify f e u) := by
      unfold analyzeFile analyzeRun
      rw [hu, hv]
    rw [hrw, mergeStep_issues]
    exact ⟨v.issues, rfl⟩

theorem analyzeFile_issues_ext_preBackend (f : UploadedFile) (e : Env) :
    ∃ l, (analyzeFile f e).issues = ((preBackend f e).1).issues ++ l := by
  cases hu : e.upload with
  | fail =>
    rw [analyzeFile_fallback_of_upload_fail f e hu]
    obtain ⟨l2, h2⟩ := localVerificationWith_issues MOCK_REGISTRY
      (pushIssue (preBackend f e).1 backendFailMsg) f
    refine ⟨[backendFailMsg] ++ l2, ?_⟩
    show (localVerificationWith MOCK_REGISTRY
      (pushIssue (preBackend f e).1 backendFailMsg) f).issues = _
    rw [h2, pushIssue_issues, List.append_assoc]
  | ok u =>
    obtain ⟨l1, h1⟩ := preVerify_issues f e u
    obtain ⟨l2, h2⟩ := analyzeFile_issues_ext_preVerify f e u hu
    refine ⟨l1 ++ l2, ?_⟩
    rw [h2, h1, List.append_assoc]

/-! ### Claim C4 -/

/-- C4: the pipeline is total (the embedding returns a `VerificationResult`
for every file and every combination of call outcomes, by construction) and
converts each decode or remote failure at a reachable call site into its
appended issue string; when all remote calls fail, the local fallback still
produces a `suspect` or `valid` status. -/
theorem c4_total_failures_become_issues (file : UploadedFile) (env : Env) :
    (strStartsWith file.type "image/" = true → env.qr = Outcome.fail →
        "Failed to read QR code from image" ∈ (analyzeFile file env).issues)
    ∧ (strStartsWith file.type "image/" = true → env.detect1 = Outcome.fail →
        "AI-powered fake detection unavailable" ∈ (analyzeFile file env).issues)
    ∧ (∀ u, env.upload = Outcome.ok u → strStartsWith file.type "image/" = true →
        env.ocr = Outcome.fail →
        "OCR text extraction failed" ∈ (analyzeFile file env).issues)
    ∧ (∀ u, env.upload = Outcome.ok u → strStartsWith file.type "image/" = true →
        env.detect1 = Outcome.fail → env.detect2 = Outcome.fail →
        "AI-powered fake detection with OCR unavailable" ∈ (analyzeFile file env).issues)
    ∧ (env.upload = Outcome.fail → backendFailMsg ∈ (analyzeFile file env).issues)
    ∧ (∀ u, env.upload = Outcome.ok u → env.verify = Outcome.fail →
        backendFailMsg ∈ (analyzeFile file env).issues)
    ∧ (env.detect1 = Outcome.fail → env.upload = Outcome.fail →
        env.ocr = Outcome.fail → env.verify = Outcome.fail →
        (analyzeFile file env).status = Status.suspect ∨
          (analyzeFile file env).status = Status.valid) := by
  refine ⟨?_, ?_, ?_, ?_, ?_, ?_, ?_⟩
  · intro himg hq
    obtain ⟨l2, h2⟩ := analyzeFile_issues_ext_preBackend file env
    rw [h2]
    apply List.mem_append_left
    unfold preBackend
    obtain ⟨l3, h3⟩ := detect1Step_fst_issues file env (qrStep file env (mkBase file env))
    rw [h3]
    apply List.mem_append_left
    simp [qrStep, himg, hq, pushIssue]
  · intro himg hd
    obtain ⟨l2, h2⟩ := analyzeFile_issues_ext_preBackend file env
    rw [h2]
    apply List.mem_append_left
    simp [preBackend, detect1Step, himg, hd, pushIssue]
  · intro u hu himg ho
    obtain ⟨l, hl⟩ := analyzeFile_issues_ext_preVerify file env u hu
    rw [hl]
    apply List.mem_append_left
    unfold preVerify
    obtain ⟨l2, h2⟩ := detect2Step_issues file env (preBackend file env).2
      (ocrStep file env (setUploadId (preBackend file env).1 u.id))
    rw [h2]
    apply List.mem_append_left
    simp [ocrStep, himg, ho, pushIssue]
  · intro u hu himg hd1 hd2
    have hdone : (preBackend file env).2 = false := by
      simp [preBackend, detect1Step, himg, hd1, pushIssue]
    obtain ⟨l, hl⟩ := analyzeFile_issues_ext_preVerify file env u hu
    rw [hl]
    apply List.mem_append_left
    unfold preVerify
    rw [hdone]
    simp [detect2Step, himg, hd2, pushIssue]
  · intro hu
    rw [analyzeFile_fallback_of_upload_fail file env hu]
    obtain ⟨l, hl⟩ := localVerificationWith_issues MOCK_REGISTRY
      (pushIssue (preBackend file env).1 backendFailMsg) file
    show backendFailMsg ∈ (localVerificationWith MOCK_REGISTRY
      (pushIssue (preBackend file env).1 backendFailMsg) file).issues
    rw [hl, pushIssue_issues]
    simp
  · intro u hu hv
    rw [analyzeFile_fallback_of_verify_fail file env u hu hv]
    obtain ⟨l, hl⟩ := localVerificationWith_issues MOCK_REGISTRY
      (pushIssue (preVerify file env u) backendFailMsg) file
    show backendFailMsg ∈ (localVerificationWith MOCK_REGISTRY
      (pushIssue (preVerify file env u) backendFailMsg) file).issues
    rw [hl, pushIssue_issues]
    simp
  · intro _ hu _ _
    rw [analyzeFile_fallback_of_upload_fail file env hu]
    rcases localVerificationWith_status MOCK_REGISTRY
      (pushIssue (preBackend file env).1 backendFailMsg) file with h | h
    · right; exact h
    · left; exact h

/-- Witness for C4, covering every conjunct at two concrete runs: the
full-offline run (everything fails) and a run where only upload and the
verify failure are reachable after a successful upload. -/
theorem c4_total_failures_become_issues_witness :
    ("Failed to read QR code from image" ∈ (analyzeFile imageFile envAllFail).issues)
    ∧ ("AI-powered fake detection unavailable" ∈ (analyzeFile imageFile envAllFail).issues)
    ∧ ("OCR text extraction failed" ∈ (analyzeFile imageFile envVerifyFails).issues)
    ∧ ("AI-powered fake detection with OCR unavailable"
        ∈ (analyzeFile imageFile envVerifyFails).issues)
    ∧ (backendFailMsg ∈ (analyzeFile imageFile envAllFail).issues)
    ∧ (backendFailMsg ∈ (analyzeFile imageFile envVerifyFails).issues)
    ∧ ((analyzeFile imageFile envAllFail).status = Status.suspect ∨
        (analyzeFile imageFile envAllFail).status = Status.valid) :=
  ⟨(c4_total_failures_become_issues imageFile envAllFail).1 (by decide) rfl,
   (c4_total_failures_become_issues imageFile envAllFail).2.1 (by decide) rfl,
   (c4_total_failures_become_issues imageFile envVerifyFails).2.2.1
     { id := "id1" } rfl (by decide) rfl,
   (c4_total_failures_become_issues imageFile envVerifyFails).2.2.2.1
     { id := "id1" } rfl (by decide) rfl rfl,
   (c4_total_failures_become_issues imageFile envAllFail).2.2.2.2.1 rfl,
   (c4_total_failures_become_issues imageFile envVerifyFails).2.2.2.2.2.1
     { id := "id1" } rfl rfl,
   (c4_total_failures_become_issues imageFile envAllFail).2.2.2.2.2.2 rfl rfl rfl rfl⟩

/-! ### Claim C10 -/

theorem mergeStep_matchedRecord (v : VerificationResponse) (hh : String)
    (b : VerificationResult) (r : RemoteRecord)
    (hr : v.matched_record = some r) :
    (mergeStep v hh b).matchedRecord = some
      { certificateNumber := r.certificate_number, hashHex := hh, name := r.name
      , institution := r.institution, course := r.course, year := r.year } := by
  unfold mergeStep
  rw [hr]

/-- C10: when the authoritative path succeeds, the result's issues are the
accumulated local issues followed by the remote verification's issues, and a
remote matched record is adopted in the local `RegistryRecord` shape with
its hash field set to the locally computed fingerprint rather than any
remote hash. -/
theorem c10_authoritative_merge (file : UploadedFile) (env : Env)
    (u : UploadResponse) (v : VerificationResponse)
    (hu : env.upload = Outcome.ok u) (hv : env.verify = Outcome.ok v) :
    (analyzeFile file env).issues = (preVerify file env u).issues ++ v.issues
    ∧ ∀ r, v.matched_record = some r →
        (analyzeFile file env).matchedRecord = some
          { certificateNumber := r.certificate_number
          , hashHex := hashOf file env
          , name := r.name, institution := r.institution
          , course := r.course, year := r.year } := by
  have hrw : analyzeFile file env
      = mergeStep v (hashOf file env) (preVerify file env u) := by
    unfold analyzeFile analyzeRun
    rw [hu, hv]
  constructor
  · rw [hrw, mergeStep_issues]
  · intro r hr
    rw [hrw]
    exact mergeStep_matchedRecord v (hashOf file env) (preVerify file env u) r hr

/-- Witness for C10 at a concrete successful authoritative run. -/
theorem c10_authoritative_merge_witness :
    (analyzeFile pdfFile envBackendOnly).issues
      = (preVerify pdfFile envBackendOnly { id := "id1" }).issues ++ validRemote.issues
    ∧ (analyzeFile pdfFile envBackendOnly).matchedRecord = some
        { certificateNumber := "JH-NU-2019-000123"
        , hashHex := hashOf pdfFile envBackendOnly
        , name := "Aarav Kumar", institution := "Nilamber-Pitamber University"
        , course := "B.Sc", year := 2019 } :=
  ⟨(c10_authoritative_merge pdfFile envBackendOnly { id := "id1" } validRemote rfl rfl).1,
   (c10_authoritative_merge pdfFile envBackendOnly { id := "id1" } validRemote rfl rfl).2
     { certificate_number := "JH-NU-2019-000123", name := "Aarav Kumar"
     , institution := "Nilamber-Pitamber University", course := "B.Sc", year := 2019 } rfl⟩

/-! ### Helper lemmas for the local matcher claim -/

theorem matchTokenAt_ne_nil (l t : List Char) (h : matchTokenAt l = some t) :
    t ≠ [] := by
  rw [matchTokenAt.eq_def] at h
  split at h
  · split at h
    · dsimp only at h
      split at h
      · injection h with h'
        subst h'
        simp
      · simp at h
    · simp at h
  · simp at h

theorem findToken_ne_nil (l t : List Char) (h : findToken l = some t) :
    t ≠ [] := by
  induction l with
  | nil => simp [findToken] at h
  | cons c cs ih =>
    unfold findToken at h
    split at h
    · rename_i t0 hm
      injection h with h'
      subst h'
      exact matchTokenAt_ne_nil _ _ hm
    · exact ih h

theorem extractCertificateNumber_ne_empty (i : Option String) (x : String)
    (h : extractCertificateNumber i = some x) : x ≠ "" := by
  cases i with
  | none => simp [extractCertificateNumber] at h
  | some s =>
    unfold extractCertificateNumber at h
    dsimp only at h
    split at h
    · simp at h
    · split at h
      · rename_i t hft
        injection h with h'
        subst h'
        intro hempty
        have ht := findToken_ne_nil s.data t hft
        have hdata : (t.map Char.toUpper) = [] := by
          have hcd := congrArg String.data hempty
          simpa using hcd
        rw [List.map_eq_nil_iff] at hdata
        exact ht hdata
      · simp at h

theorem certNumberOf_ne_empty (q : Option String) (nm n : String)
    (h : certNumberOf q nm = some n) : n ≠ "" := by
  unfold certNumberOf at h
  dsimp only at h
  split at h
  · rename_i t heq
    split at h
    · exact extractCertificateNumber_ne_empty (some nm) n h
    · rename_i hne
      injection h with h'
      subst h'
      split at heq
      · split at heq
        · simp at heq
        · exact extractCertificateNumber_ne_empty _ _ heq
      · simp at heq
  · exact extractCertificateNumber_ne_empty (some nm) n h

theorem find?_eq_head?_filter {α : Type} (l : List α) (p : α → Bool) :
    l.find? p = (l.filter p).head? := by
  induction l with
  | nil => rfl
  | cons a t ih =>
    by_cases h : p a
    · simp [List.find?_cons, List.filter_cons, h]
    · simp only [List.find?_cons, List.filter_cons]
      rw [if_neg (by simp [h]), ih]
      simp [h]

/-! ### Claim C5 -/

/-- C5: precedence of the local matcher.  (1) A fingerprint match yields
`valid` with that record and no matcher-issue; (2) otherwise records sharing
the extracted certificate number yield `suspect` with the first such record
(in record-set order, phrased via `find?`), a mismatch issue, and a
duplicate-number issue exactly when more than one record shares the number;
(3) otherwise `suspect`, no record, and a manual-verification issue.
Structural issues (missing MIME type, zero size) are appended after
matching in every case. -/
theorem c5_local_matcher_precedence (registry : List RegistryRecord)
    (base : VerificationResult) (file : UploadedFile) :
    (∀ r, registry.find? (fun x => x.hashHex == base.metadata.hashHex) = some r →
        (localVerificationWith registry base file).status = Status.valid
        ∧ (localVerificationWith registry base file).matchedRecord = some r
        ∧ (localVerificationWith registry base file).issues
            = base.issues ++ structuralIssues file)
    ∧ (∀ n r, registry.find? (fun x => x.hashHex == base.metadata.hashHex) = none →
        certNumberOf base.metadata.qrData file.name = some n →
        registry.find? (fun x => x.certificateNumber == n) = some r →
        (localVerificationWith registry base file).status = Status.suspect
        ∧ (localVerificationWith registry base file).matchedRecord = some r
        ∧ (localVerificationWith registry base file).issues
            = base.issues
              ++ ["Certificate number found but file hash does not match registry record"]
              ++ (if 1 < (registry.filter (fun x => x.certificateNumber == n)).length
                  then ["Duplicate certificate number detected in registry (possible clone)"]
                  else [])
              ++ structuralIssues file)
    ∧ (registry.find? (fun x => x.hashHex == base.metadata.hashHex) = none →
        numberMatchesOf registry (certNumberOf base.metadata.qrData file.name) = [] →
        (localVerificationWith registry base file).status = Status.suspect
        ∧ (localVerificationWith registry base file).matchedRecord = none
        ∧ (localVerificationWith registry base file).issues
            = base.issues
              ++ ["No registry match. Please contact issuing institution for manual validation"]
              ++ structuralIssues file) := by
  refine ⟨?_, ?_, ?_⟩
  · intro r h1
    unfold localVerificationWith
    dsimp only
    rw [h1]
    exact ⟨rfl, rfl, rfl⟩
  · intro n r h1 h2 h3
    have hne : n ≠ "" := certNumberOf_ne_empty base.metadata.qrData file.name n h2
    have hmm : numberMatchesOf registry (certNumberOf base.metadata.qrData file.name)
        = registry.filter (fun x => x.certificateNumber == n) := by
      rw [h2]
      simp [numberMatchesOf, hne]
    have hhead : (registry.filter (fun x => x.certificateNumber == n)).head? = some r := by
      rw [← find?_eq_head?_filter]
      exact h3
    rcases hfl : registry.filter (fun x => x.certificateNumber == n) with _ | ⟨a, tl⟩
    · rw [hfl] at hhead
      simp at hhead
    · rw [hfl] at hhead
      simp only [List.head?_cons, Option.some.injEq] at hhead
      subst hhead
      unfold localVerificationWith
      dsimp only
      rw [h1, hmm, hfl]
      dsimp only
      refine ⟨rfl, rfl, ?_⟩
      cases tl with
      | nil => simp
      | cons b tlb => simp
  · intro h1 h2
    unfold localVerificationWith
    dsimp only
    rw [h1, h2]
    exact ⟨rfl, rfl, rfl⟩

/-- Witness for C5 at concrete inputs covering all three precedence cases:
a run whose content hash matches the second mock record; a run with a
non-matching hash whose file name carries the first mock record's number;
and a run matching nothing. -/
theorem c5_local_matcher_precedence_witness :
    ((localVerificationWith MOCK_REGISTRY (mkBase imageFile envLatchThenFallback) imageFile).status
        = Status.valid
      ∧ (localVerificationWith MOCK_REGISTRY (mkBase imageFile envLatchThenFallback) imageFile).matchedRecord
        = some { certificateNumber := "JH-RU-2021-004567"
               , hashHex := "aaaaaaaaaaaaaaaaaaaaaaaaaaaaaaaaaaaaaaaaaaaaaaaaaaaaaaaaaaaaaaaa"
               , name := "Ishita Singh", institution := "Ranchi University"
               , course := "B.Tech", year := 2021 })
    ∧ ((localVerificationWith MOCK_REGISTRY (mkBase namedFile envAllFail) namedFile).status
        = Status.suspect
      ∧ (localVerificationWith MOCK_REGISTRY (mkBase namedFile envAllFail) namedFile).matchedRecord
        = some { certificateNumber := "JH-NU-2019-000123"
               , hashHex := "e3b0c44298fc1c149afbf4c8996fb92427ae41e4649b934ca495991b7852b855"
               , name := "Aarav Kumar", institution := "Nilamber-Pitamber University"
               , course := "B.Sc", year := 2019 })
    ∧ ((localVerificationWith MOCK_REGISTRY (mkBase imageFile envAllFail) imageFile).status
        = Status.suspect
      ∧ (localVerificationWith MOCK_REGISTRY (mkBase imageFile envAllFail) imageFile).matchedRecord
        = none) := by
  refine ⟨?_, ?_, ?_⟩
  · have h := (c5_local_matcher_precedence MOCK_REGISTRY
      (mkBase imageFile envLatchThenFallback) imageFile).1
      { certificateNumber := "JH-RU-2021-004567"
      , hashHex := "aaaaaaaaaaaaaaaaaaaaaaaaaaaaaaaaaaaaaaaaaaaaaaaaaaaaaaaaaaaaaaaa"
      , name := "Ishita Singh", institution := "Ranchi University"
      , course := "B.Tech", year := 2021 } (by decide)
    exact ⟨h.1, h.2.1⟩
  · have h := (c5_local_matcher_precedence MOCK_REGISTRY
      (mkBase namedFile envAllFail) namedFile).2.1
      "JH-NU-2019-000123"
      { certificateNumber := "JH-NU-2019-000123"
      , hashHex := "e3b0c44298fc1c149afbf4c8996fb92427ae41e4649b934ca495991b7852b855"
      , name := "Aarav Kumar", institution := "Nilamber-Pitamber University"
      , course := "B.Sc", year := 2019 } (by decide) (by decide) (by decide)
    exact ⟨h.1, h.2.1⟩
  · have h := (c5_local_matcher_precedence MOCK_REGISTRY
      (mkBase imageFile envAllFail) imageFile).2.2 (by decide) (by decide)
    exact ⟨h.1, h.2.1⟩

/-! ### Claim C9 -/

theorem natToHexAux_small (fuel n : Nat) (h : n < 16) :
    natToHexAux fuel n = [hexDigit n] := by
  cases fuel with
  | zero => rfl
  | succ f => simp [natToHexAux, h]

theorem byteToHex_length (n : Nat) (h : n < 256) : (byteToHex n).length = 2 := by
  unfold byteToHex natToHexList
  by_cases h16 : n < 16
  · rw [natToHexAux_small n n h16]
    simp
  · obtain ⟨m, rfl⟩ : ∃ m, n = m + 1 := ⟨n - 1, by omega⟩
    simp only [natToHexAux]
    rw [if_neg h16, natToHexAux_small m ((m + 1) / 16) (by omega)]
    simp

theorem hexDigit_mem : ∀ k < 16, hexDigit k ∈ hexChars := by decide

theorem byteToHex_chars (n : Nat) (h : n < 256) :
    ∀ c ∈ byteToHex n, c ∈ hexChars := by
  unfold byteToHex natToHexList
  by_cases h16 : n < 16
  · rw [natToHexAux_small n n h16]
    intro c hc
    simp at hc
    rcases hc with hc | hc
    · subst hc; decide
    · subst hc; exact hexDigit_mem n h16
  · obtain ⟨m, rfl⟩ : ∃ m, n = m + 1 := ⟨n - 1, by omega⟩
    simp only [natToHexAux]
    rw [if_neg h16, natToHexAux_small m ((m + 1) / 16) (by omega)]
    intro c hc
    simp at hc
    rcases hc with hc | hc
    · subst hc; exact hexDigit_mem _ (by omega)
    · subst hc; exact hexDigit_mem _ (by omega)

theorem flatten_byteToHex_length (bs : List Nat) (h : ∀ x ∈ bs, x < 256) :
    (List.flatten (bs.map byteToHex)).length = 2 * bs.length := by
  induction bs with
  | nil => simp
  | cons a t ih =>
    simp only [List.map_cons, List.flatten_cons, List.length_append, List.length_cons]
    rw [byteToHex_length a (h a (by simp)), ih (fun x hx => h x (by simp [hx]))]
    ring

theorem flatten_byteToHex_chars (bs : List Nat) (h : ∀ x ∈ bs, x < 256) :
    ∀ c ∈ List.flatten (bs.map byteToHex), c ∈ hexChars := by
  induction bs with
  | nil => simp
  | cons a t ih =>
    intro c hc
    simp only [List.map_cons, List.flatten_cons, List.mem_append] at hc
    rcases hc with hc | hc
    · exact byteToHex_chars a (h a (by simp)) c hc
    · exact ih (fun x hx => h x (by simp [hx])) c hc

/-- C9 counterexample: with `crypto.subtle` unavailable, `sha256Hex` is not
deterministic across runs (its output depends on `Date.now()`) and is not a
64-character hash encoding. -/
theorem c9_fingerprint_counterexample :
    sha256Hex none 1 [] ≠ sha256Hex none 2 []
    ∧ (sha256Hex none 1 []).length ≠ 64 := by
  constructor
  · decide
  · decide

/-- C9 amended: when the Web Crypto digest is available, `sha256Hex` is a
pure function of the content — independent of the clock — and its output is
the 64-character lowercase-hexadecimal encoding of the 32-byte digest; when
the digest is unavailable, the source instead returns a `Date.now()`-based
placeholder (see the counterexample). -/
theorem c9_fingerprint_amended (d : List Nat → List Nat) (n1 n2 : Nat)
    (b : List Nat) (hlen : ∀ bs, (d bs).length = 32)
    (hbyte : ∀ bs, ∀ x ∈ d bs, x < 256) :
    sha256Hex (some d) n1 b = sha256Hex (some d) n2 b
    ∧ (sha256Hex (some d) n1 b).length = 64
    ∧ ∀ c ∈ (sha256Hex (some d) n1 b).data, c ∈ hexChars := by
  refine ⟨rfl, ?_, ?_⟩
  · show (bytesToHex (d b)).length = 64
    show (List.flatten ((d b).map byteToHex)).length = 64
    rw [flatten_byteToHex_length (d b) (hbyte b), hlen b]
  · intro c hc
    have hc' : c ∈ List.flatten ((d b).map byteToHex) := hc
    exact flatten_byteToHex_chars (d b) (hbyte b) c hc'

/-- Witness for C9 amended at the constant digest stub. -/
theorem c9_fingerprint_amended_witness :
    (∀ bs, (constDigest 0 bs).length = 32)
    ∧ (∀ bs, ∀ x ∈ constDigest 0 bs, x < 256)
    ∧ sha256Hex (some (constDigest 0)) 1 [7] = sha256Hex (some (constDigest 0)) 2 [7]
    ∧ (sha256Hex (some (constDigest 0)) 1 [7]).length = 64 := by
  have hlen : ∀ bs, (constDigest 0 bs).length = 32 := fun bs => by
    simp [constDigest]
  have hbyte : ∀ bs, ∀ x ∈ constDigest 0 bs, x < 256 := fun bs x hx => by
    simp [constDigest, List.mem_replicate] at hx
    omega
  have h := c9_fingerprint_amended (constDigest 0) 1 2 [7] hlen hbyte
  exact ⟨hlen, hbyte, h.1, h.2.1⟩

/-! ### Claim C8 -/

theorem takeWhile_append_all {α : Type} (p : α → Bool) (xs ys : List α)
    (h : ∀ x ∈ xs, p x = true) :
    (xs ++ ys).takeWhile p = xs ++ ys.takeWhile p := by
  induction xs with
  | nil => simp
  | cons a t ih =>
    simp only [List.cons_append, List.takeWhile_cons]
    rw [h a (by simp)]
    simp only [if_true]
    rw [ih (fun x hx => h x (by simp [hx]))]

theorem matchTokenAt_isSome_of_shape (t : List Char) (hshape : tokenShape t)
    (l₂ : List Char) : (matchTokenAt (t ++ l₂)).isSome = true := by
  obtain ⟨j, hh, a, b, d1, d2, d3, d4, ds, rfl, hj, hhh, ha, hb, h1, h2, h3, h4,
    hds, hlen⟩ := hshape
  have htw : (ds ++ l₂).takeWhile (fun c => c.isDigit)
      = ds ++ l₂.takeWhile (fun c => c.isDigit) :=
    takeWhile_append_all _ ds l₂ hds
  have hlen' : 6 ≤ ((ds ++ l₂).takeWhile (fun c => c.isDigit)).length := by
    rw [htw]
    simp only [List.length_append]
    omega
  rcases hj with rfl | rfl <;> rcases hhh with rfl | rfl <;>
    simp [matchTokenAt, ha, hb, h1, h2, h3, h4, hlen']

theorem findToken_isSome_of_split (l₁ l₂ : List Char)
    (h : (matchTokenAt l₂).isSome = true) :
    (findToken (l₁ ++ l₂)).isSome = true := by
  induction l₁ with
  | nil =>
    simp only [List.nil_append]
    cases l₂ with
    | nil => simp [matchTokenAt] at h
    | cons c cs =>
      obtain ⟨t, ht⟩ := Option.isSome_iff_exists.mp h
      simp [findToken, ht]
  | cons c l₁' ih =>
    simp only [List.cons_append]
    unfold findToken
    cases hm : matchTokenAt (c :: (l₁' ++ l₂)) with
    | some t => simp
    | none => simpa using ih

theorem findToken_some_decomp (l : List Char) (t : List Char)
    (h : findToken l = some t) :
    ∃ l₁ l₂, l = l₁ ++ l₂ ∧ matchTokenAt l₂ = some t
      ∧ ∀ p q, l = p ++ q → p.length < l₁.length → matchTokenAt q = none := by
  induction l with
  | nil => simp [findToken] at h
  | cons c cs ih =>
    unfold findToken at h
    split at h
    · rename_i t0 hm
      injection h with h'
      subst h'
      exact ⟨[], c :: cs, rfl, hm,
        fun p q _ hlt => absurd hlt (Nat.not_lt_zero _)⟩
    · rename_i hm
      obtain ⟨l₁, l₂, heq, hmt, hmin⟩ := ih h
      refine ⟨c :: l₁, l₂, by simp [heq], hmt, ?_⟩
      intro p q hpq hlt
      cases p with
      | nil =>
        simp only [List.nil_append] at hpq
        rw [← hpq]
        exact hm
      | cons c' p' =>
        simp only [List.cons_append, List.cons.injEq] at hpq
        simp only [List.length_cons] at hlt
        exact hmin p' q hpq.2 (by omega)

theorem matchTokenAt_some_shape (l t : List Char) (h : matchTokenAt l = some t) :
    tokenShape t ∧ ∃ l₂, l = t ++ l₂ := by
  rw [matchTokenAt.eq_def] at h
  split at h
  · rename_i j hh c1 a b c2 d1 d2 d3 d4 c3 rest
    split at h
    · rename_i hcond
      dsimp only at h
      split at h
      · rename_i hlen
        injection h with h'
        subst h'
        simp only [Bool.and_eq_true, Bool.or_eq_true, beq_iff_eq] at hcond
        obtain ⟨⟨⟨⟨⟨⟨⟨⟨⟨⟨hj, hhh⟩, hc1⟩, ha⟩, hb⟩, hc2⟩, h1⟩, h2⟩, h3⟩, h4⟩, hc3⟩ := hcond
        subst hc1
        subst hc2
        subst hc3
        constructor
        · refine ⟨j, hh, a, b, d1, d2, d3, d4,
            rest.takeWhile (fun c => c.isDigit), rfl, hj, hhh, ha, hb,
            h1, h2, h3, h4, ?_, hlen⟩
          intro c hc
          exact List.mem_takeWhile_imp hc
        · refine ⟨rest.dropWhile (fun c => c.isDigit), ?_⟩
          simp [List.takeWhile_append_dropWhile]
      · simp at h
    · simp at h
  · simp at h

/-- C8 counterexample: `AB-CD-2020-123456` fits the claimed shape (two
letters, hyphen, two letters, hyphen, four digits, hyphen, six digits) but
the source pattern requires the literal prefix `JH`, so extraction returns
nothing instead of the claimed token. -/
theorem c8_extraction_counterexample :
    extractCertificateNumber (some "AB-CD-2020-123456") = none
    ∧ extractCertificateNumber (some "AB-CD-2020-123456")
        ≠ some "AB-CD-2020-123456" := by
  constructor
  · decide
  · decide

/-- C8 amended: the pattern's first two letters are the literal `JH`
(case-insensitive).  For every input string containing a token of shape
`JH`-hyphen-two letters-hyphen-four digits-hyphen-six-or-more digits,
`extractCertificateNumber` returns the uppercase normalization of the
leftmost such token occurring in the input (no shaped token starts strictly
earlier).  The number used by the matcher is taken from the decoded QR
payload when extraction from it yields a token; otherwise — both when the
QR payload is present but yields no token and when it is absent — from the
file's display name. -/
theorem c8_extraction_amended :
    (∀ (s : String) (l₁ t l₂ : List Char),
        s.data = l₁ ++ t ++ l₂ → tokenShape t →
        ∃ t₀ m₁ m₂, s.data = m₁ ++ t₀ ++ m₂ ∧ tokenShape t₀
          ∧ (∀ p tk qk, s.data = p ++ tk ++ qk → tokenShape tk →
              m₁.length ≤ p.length)
          ∧ extractCertificateNumber (some s)
              = some (String.mk (t₀.map Char.toUpper)))
    ∧ (∀ q nm t, extractCertificateNumber (some q) = some t →
        certNumberOf (some q) nm = some t)
    ∧ (∀ q nm, extractCertificateNumber (some q) = none →
        certNumberOf (some q) nm = extractCertificateNumber (some nm))
    ∧ (∀ nm, certNumberOf none nm = extractCertificateNumber (some nm)) := by
  refine ⟨?_, ?_, ?_, ?_⟩
  · intro s l₁ t l₂ hsplit hshape
    have hsome := matchTokenAt_isSome_of_shape t hshape l₂
    have hfts : (findToken s.data).isSome = true := by
      rw [hsplit, List.append_assoc]
      exact findToken_isSome_of_split l₁ (t ++ l₂) hsome
    obtain ⟨t', hft⟩ := Option.isSome_iff_exists.mp hfts
    obtain ⟨m₁, m₂', hdecomp, hm, hmin⟩ := findToken_some_decomp s.data t' hft
    obtain ⟨hshape', m₂, hrest⟩ := matchTokenAt_some_shape m₂' t' hm
    have htne : t' ≠ [] := matchTokenAt_ne_nil m₂' t' hm
    have hdne : s.data ≠ [] := by
      rw [hdecomp, hrest]
      intro hnil
      simp only [List.append_eq_nil] at hnil
      exact htne hnil.2.1
    refine ⟨t', m₁, m₂, ?_, hshape', ?_, ?_⟩
    · rw [hdecomp, hrest, List.append_assoc]
    · intro p tk qk hocc hshk
      by_contra hge
      push_neg at hge
      have hq : s.data = p ++ (tk ++ qk) := by
        rw [hocc, List.append_assoc]
      have hnone := hmin p (tk ++ qk) hq hge
      have hsome2 := matchTokenAt_isSome_of_shape tk hshk qk
      rw [hnone] at hsome2
      simp at hsome2
    · have hsne : s ≠ "" := by
        intro hs
        apply hdne
        rw [hs]
      unfold extractCertificateNumber
      dsimp only
      rw [if_neg (by simpa using hsne), hft]
  · intro q nm t h
    have hqne : q ≠ "" := by
      intro hq
      subst hq
      simp [extractCertificateNumber] at h
    have htne := extractCertificateNumber_ne_empty (some q) t h
    unfold certNumberOf
    dsimp only
    rw [if_neg (by simpa using hqne), h]
    dsimp only
    rw [if_neg (by simpa using htne)]
  · intro q nm h
    unfold certNumberOf
    dsimp only
    by_cases hq : (q == "") = true
    · rw [if_pos hq]
    · rw [if_neg hq, h]
  · intro nm
    rfl

/-- Witness for C8 amended: a name with an embedded lowercase token whose
uppercase normalization is extracted (with the leftmost-match guarantee); a
QR payload token taking precedence over the file name; a QR payload without
a token falling back to the file name; and the QR-absent fallback to the
name. -/
theorem c8_extraction_amended_witness :
    (∃ t₀ m₁ m₂, ("cert_JH-nu-2019-000123.pdf" : String).data = m₁ ++ t₀ ++ m₂
      ∧ tokenShape t₀
      ∧ (∀ p tk qk, ("cert_JH-nu-2019-000123.pdf" : String).data = p ++ tk ++ qk →
          tokenShape tk → m₁.length ≤ p.length)
      ∧ extractCertificateNumber (some "cert_JH-nu-2019-000123.pdf")
          = some (String.mk (t₀.map Char.toUpper)))
    ∧ certNumberOf (some "JH-AB-2020-1234567") "name.png" = some "JH-AB-2020-1234567"
    ∧ certNumberOf (some "hello world") "JH-NU-2019-000123.png"
        = extractCertificateNumber (some "JH-NU-2019-000123.png")
    ∧ certNumberOf none "x.png" = extractCertificateNumber (some "x.png") := by
  refine ⟨?_, ?_, ?_, ?_⟩
  · exact c8_extraction_amended.1 "cert_JH-nu-2019-000123.pdf"
      "cert_".data "JH-nu-2019-000123".data ".pdf".data (by decide)
      ⟨'J', 'H', 'n', 'u', '2', '0', '1', '9', "000123".data, by decide,
        Or.inl rfl, Or.inl rfl, by decide, by decide, by decide, by decide,
        by decide, by decide, by decide, by decide⟩
  · exact c8_extraction_amended.2.1 "JH-AB-2020-1234567" "name.png"
      "JH-AB-2020-1234567" (by decide)
  · exact c8_extraction_amended.2.2.1 "hello world" "JH-NU-2019-000123.png"
      (by decide)
  · exact c8_extraction_amended.2.2.2 "x.png"
